import Mathlib

/-!
# coraza-spoa: the signal loop of `main` and the end-to-end scenarios

Shallow embedding of `main.go` (start-up and the signal loop) and of the data
that `internal/e2e_test.go` fixes (the rule set, the SPOE message arguments and
the proxy rules of the test frontend).

The calls `readConfig`, `newLogger` and `newApplications` are not part of the
embedded files; their outcomes are parameters (`Env`), one per loop iteration.
-/

namespace CorazaSpoa

/-! ## Data model of `main.go` -/

/-- Signals delivered on `sigCh`: exactly the four that `signal.Notify` subscribes to
(main.go line 70). -/
inductive Signal where
  | SIGTERM
  | SIGHUP
  | SIGUSR1
  | SIGINT
  deriving DecidableEq, Repr

/-- Configuration value as `main` uses it: `Bind` and `Log` are the two fields that
`main` compares; `rest` stands for everything else the file holds (the application
entries). `L` is the type of the log settings, compared with `!=` at line 90. -/
structure Config (L R : Type) where
  Bind : String
  Log : L
  rest : R
  deriving DecidableEq, Repr

/-- Severity of a log line written by `main` in the loop. -/
inductive Level where
  | info
  | error
  deriving DecidableEq, Repr

/-- Observable actions of `main`, in program order. `log` records which logger value
received the line (the value of `globalLogger` at that moment). -/
inductive Event (L R Lg A : Type) where
  | log (logger : Lg) (level : Level) (msg : String) (err : Option String)
  | readConfig
  | newLogger (settings : L)
  | newApplications (cfg : Config L R)
  | ReplaceApplications (apps : A)
  | cancelFunc
  deriving DecidableEq, Repr

/-- Outcomes of the external calls during one loop iteration: what `readConfig()`
returns, and what `newLogger` / `newApplications` return on a given receiver. -/
structure Env (L R Lg A : Type) where
  readConfig : Except String (Config L R)
  newLogger : L → Except String Lg
  newApplications : Config L R → Except String A

/-- The variables the loop reads and writes: local `cfg`, package-level `globalLogger`,
and the application set held by the agent `a`. -/
structure State (L R Lg A : Type) where
  cfg : Config L R
  globalLogger : Lg
  Applications : A
  deriving DecidableEq, Repr

/-- Modelled from the spec: `Agent.ReplaceApplications` (package `internal`, not among
the embedded files). Section 4.3: Replace "atomically installs a new snapshot"; the new
set becomes the registry as a whole. -/
def ReplaceApplications {A : Type} (_old new : A) : A := new

/-- Result of one loop iteration: the state after it, the actions performed, and
whether `main` returned. -/
structure StepResult (L R Lg A : Type) where
  state : State L R Lg A
  trace : List (Event L R Lg A)
  returned : Bool

section Loop

variable {L R Lg A : Type} [DecidableEq L]

/-- Lines 99-111 of main.go: the bind check, the application build and the swap.
`s.globalLogger` already holds the logger chosen by lines 90-97; `tr` is the trace so
far. -/
def reloadApply (env : Env L R Lg A) (s : State L R Lg A) (newCfg : Config L R)
    (tr : List (Event L R Lg A)) : State L R Lg A × List (Event L R Lg A) :=
  if s.cfg.Bind ≠ newCfg.Bind then
    (s, tr ++ [.log s.globalLogger .error
      "Changing bind is not supported yet, using old configuration" none])
  else
    match env.newApplications newCfg with
    | .error e =>
      (s, tr ++ [.newApplications newCfg, .log s.globalLogger .error
        "Error applying configuration, using old configuration" (some e)])
    | .ok apps =>
      ({ s with cfg := newCfg, Applications := ReplaceApplications s.Applications apps },
        tr ++ [.newApplications newCfg, .ReplaceApplications apps])

/-- The `case syscall.SIGHUP` branch, lines 81-111 of main.go. -/
def reload (env : Env L R Lg A) (s : State L R Lg A) :
    State L R Lg A × List (Event L R Lg A) :=
  let tr : List (Event L R Lg A) :=
    [.log s.globalLogger .info "Received SIGHUP, reloading configuration..." none,
     .readConfig]
  match env.readConfig with
  | .error e =>
    (s, tr ++ [.log s.globalLogger .error
      "Error loading configuration, using old configuration" (some e)])
  | .ok newCfg =>
    if s.cfg.Log ≠ newCfg.Log then
      match env.newLogger newCfg.Log with
      | .error e =>
        (s, tr ++ [.newLogger newCfg.Log, .log s.globalLogger .error
          "Error creating new global logger, using old configuration" (some e)])
      | .ok newLogger =>
        reloadApply env { s with globalLogger := newLogger } newCfg
          (tr ++ [.newLogger newCfg.Log])
    else
      reloadApply env s newCfg tr

/-- One iteration of the `for` loop (lines 71-113): receive `sig`, run the `switch`. -/
def step (env : Env L R Lg A) (s : State L R Lg A) : Signal → StepResult L R Lg A
  | .SIGTERM =>
    ⟨s, [.log s.globalLogger .info "Received SIGTERM, shutting down..." none], true⟩
  | .SIGINT =>
    ⟨s, [.log s.globalLogger .info "Received SIGINT, shutting down..." none], true⟩
  | .SIGHUP => ⟨(reload env s).1, (reload env s).2, false⟩
  | .SIGUSR1 => ⟨s, [], false⟩

/-- The signal loop on a finite sequence of received signals, each paired with the
outcomes of the external calls at that iteration. When an iteration returns, the
deferred `cancelFunc` (line 47) runs and the remaining signals are not received. With
the sequence exhausted the loop is blocked on `<-sigCh` (`returned = false`). -/
def run (s : State L R Lg A) : List (Signal × Env L R Lg A) → StepResult L R Lg A
  | [] => ⟨s, [], false⟩
  | (sig, env) :: rest =>
    let r := step env s sig
    if r.returned then
      ⟨r.state, r.trace ++ [.cancelFunc], true⟩
    else
      let r2 := run r.state rest
      ⟨r2.state, r.trace ++ r2.trace, r2.returned⟩

/-- Lines 26-53 of main.go: the start-up before the loop. `none` is a `Fatal()` exit.
`listen` is the outcome of opening the socket for the configuration. -/
def startup (configPath : String) (env : Env L R Lg A)
    (listen : Config L R → Except String Unit) : Option (State L R Lg A) :=
  if configPath = "" then none
  else
    match env.readConfig with
    | .error _ => none
    | .ok cfg =>
      match env.newLogger cfg.Log with
      | .error _ => none
      | .ok logger =>
        match env.newApplications cfg with
        | .error _ => none
        | .ok apps =>
          match listen cfg with
          | .error _ => none
          | .ok _ => some ⟨cfg, logger, apps⟩

/-- An event is a call of `newApplications`. -/
def Event.isNewApplications : Event L R Lg A → Bool
  | .newApplications _ => true
  | _ => false

/-- An event is a call of `ReplaceApplications`. -/
def Event.isReplace : Event L R Lg A → Bool
  | .ReplaceApplications _ => true
  | _ => false

end Loop

/-! ## The end-to-end test: data fixed by `internal/e2e_test.go` -/

/-- Rule targets that occur in `directives` (e2e_test.go lines 25-34).
`countRequestHeaders n` is the SecLang target `&REQUEST_HEADERS:n`. -/
inductive Target where
  | countRequestHeaders (name : String)
  | REQUEST_URI
  | REQUEST_BODY
  | RESPONSE_HEADERS (name : String)
  | RESPONSE_BODY
  | ARGS_NAMES
  | ARGS
  | REQUEST_HEADERS (name : String)
  deriving DecidableEq, Repr

/-- Rule operators that occur in `directives`. -/
inductive Operator where
  | eq (n : Nat)
  | streq (s : String)
  | rx (pattern : String)
  | contains (s : String)
  | detectXSS
  | detectSQLi
  | pm (phrases : List String)
  deriving DecidableEq, Repr

/-- Transformations (`t:` actions) that occur in `directives`. -/
inductive Transformation where
  | none
  | lowercase
  | utf8toUnicode
  | urlDecodeUni
  | htmlEntityDecode
  | jsDecode
  | cssDecode
  | removeNulls
  deriving DecidableEq, Repr

/-- One `SecRule` line: targets, operator and the action list. -/
structure SecRule where
  targets : List Target
  op : Operator
  id : Nat
  phase : Nat
  t : List Transformation
  deny : Bool
  status : Option Nat
  log : Bool
  msg : Option String
  multiMatch : Bool
  deriving DecidableEq, Repr

/-- The content of a directives text: engine settings and the rules in file order. -/
structure Directives where
  SecRuleEngine : Bool
  SecRequestBodyAccess : Bool
  SecResponseBodyAccess : Bool
  SecResponseBodyMimeType : String
  rules : List SecRule
  deriving DecidableEq, Repr

/-- The constant `directives` of e2e_test.go (lines 19-35), line by line. -/
def directives : Directives where
  SecRuleEngine := true
  SecRequestBodyAccess := true
  SecResponseBodyAccess := true
  SecResponseBodyMimeType := "application/json"
  rules := [
    ⟨[.countRequestHeaders "coraza-e2e"], .eq 0, 100, 1, [], true, some 424, true,
      some "Coraza E2E - Missing header", false⟩,
    ⟨[.REQUEST_URI], .streq "/admin", 101, 1, [.lowercase], true, none, true, none, false⟩,
    ⟨[.REQUEST_BODY], .rx "maliciouspayload", 102, 2, [.lowercase], true, none, true, none,
      false⟩,
    ⟨[.RESPONSE_HEADERS "pass"], .rx "leak", 103, 3, [.lowercase], true, none, true, none,
      false⟩,
    ⟨[.RESPONSE_BODY], .contains "responsebodycode", 104, 4, [.lowercase], true, none, true,
      none, false⟩,
    ⟨[.ARGS_NAMES, .ARGS], .detectXSS, 9411, 2,
      [.none, .utf8toUnicode, .urlDecodeUni, .htmlEntityDecode, .jsDecode, .cssDecode,
        .removeNulls], true, none, true, none, false⟩,
    ⟨[.ARGS_NAMES, .ARGS], .detectSQLi, 9421, 2,
      [.none, .utf8toUnicode, .urlDecodeUni, .removeNulls], true, none, true, none, true⟩,
    ⟨[.REQUEST_HEADERS "User-Agent"], .pm ["grabber", "masscan"], 9131, 1, [.none], true,
      none, true, none, false⟩]

/-- The arguments of the `coraza-req` SPOE message (e2e_test.go line 113). -/
structure RequestMessage where
  app : String
  srcIp : String
  srcPort : Nat
  dstIp : String
  dstPort : Nat
  method : String
  path : String
  query : String
  version : String
  headers : List (String × String)
  body : String
  deriving DecidableEq, Repr

/-- Modelled from the spec: the action selector of a verdict (section 3, Transaction:
none, allow, deny, drop, redirect). -/
inductive Action where
  | none
  | allow
  | deny
  | drop
  | redirect
  deriving DecidableEq, Repr

/-- Modelled from the spec: the string under which an action selector is handed to the
proxy in the `action` variable. -/
def Action.name : Action → String
  | .none => "none"
  | .allow => "allow"
  | .deny => "deny"
  | .drop => "drop"
  | .redirect => "redirect"

/-- Modelled from the spec: the verdict tuple (action, statusCode, data, errorCode) that
the evaluator returns (section 6, evaluator interface). -/
structure Verdict where
  action : Action
  statusCode : Nat
  data : String
  errorCode : Nat
  deriving DecidableEq, Repr

/-- Modelled from the spec: the parts of the rule engine that the spec keeps opaque and
that the two scenarios do not exercise: operators other than `@eq` on a count and
`@streq`, transformations other than `none` and `lowercase`, the collections `ARGS` and
`ARGS_NAMES`, and the evaluation that follows when the request-header phase does not
interrupt. -/
structure Engine where
  operator : Operator → String → Bool
  transform : Transformation → String → String
  collection : Target → RequestMessage → List String
  later : Directives → RequestMessage → Verdict

/-- ASCII lower-casing, the `t:lowercase` transformation; also used to compare header
names without regard to case. -/
def lowercase (s : String) : String := String.mk (s.data.map Char.toLower)

/-- Modelled from the spec: the request URI handed to the evaluator. The handler that
builds it is not among the embedded files; the message carries `path` and `query` as
separate arguments (line 113), and the URI is the path, followed by `?` and the query
string when there is one. -/
def requestURI (m : RequestMessage) : String :=
  if m.query = "" then m.path else m.path ++ "?" ++ m.query

/-- A value a target yields: a count (for `&` targets) or a text. -/
inductive Value where
  | count (n : Nat)
  | text (s : String)
  deriving DecidableEq, Repr

/-- Modelled from the spec: the values a rule target yields for a request-phase message
(rule evaluation is an external capability per section 1; the meaning of the targets
follows the rule texts: header count, request URI, named header, body). -/
def targetValues (e : Engine) (m : RequestMessage) : Target → List Value
  | .countRequestHeaders name =>
    [.count (m.headers.filter (fun h => lowercase h.1 == lowercase name)).length]
  | .REQUEST_URI => [.text (requestURI m)]
  | .REQUEST_HEADERS name =>
    (m.headers.filter (fun h => lowercase h.1 == lowercase name)).map (fun h => .text h.2)
  | .REQUEST_BODY => [.text m.body]
  | .RESPONSE_HEADERS _ => []
  | .RESPONSE_BODY => []
  | tg => (e.collection tg m).map .text

/-- Modelled from the spec: apply a rule's transformations, left to right, to a text. -/
def applyTransformations (e : Engine) (ts : List Transformation) (s : String) : String :=
  ts.foldl (fun acc t =>
    match t with
    | .none => acc
    | .lowercase => lowercase acc
    | other => e.transform other acc) s

/-- Modelled from the spec: does the operator hold of a (transformed) value. `@eq n`
compares a count with `n`, `@streq s` is string equality; the rest is the engine's. -/
def opHolds (e : Engine) (ts : List Transformation) : Operator → Value → Bool
  | .eq n, .count c => c == n
  | .streq s, .text v => applyTransformations e ts v == s
  | op, .text v => e.operator op (applyTransformations e ts v)
  | op, .count c => e.operator op (toString c)

/-- Modelled from the spec: a rule matches when its operator holds of some value of some
of its targets. -/
def SecRule.matchesMessage (e : Engine) (m : RequestMessage) (r : SecRule) : Bool :=
  r.targets.any (fun tg => (targetValues e m tg).any (fun v => opHolds e r.t r.op v))

/-- Modelled from the spec: what a matching disruptive rule produces: the id of the
rule, the action and the status to enforce. -/
structure Interruption where
  ruleID : Nat
  action : Action
  status : Nat
  data : String
  deriving DecidableEq, Repr

/-- Modelled from the spec: the interruption of a `deny` rule carries the rule's
`status:` when it has one and 403 otherwise (scenario A of section 8: a deny rule
without explicit status yields status 403). -/
def SecRule.interruption (r : SecRule) : Interruption :=
  ⟨r.id, .deny, r.status.getD 403, ""⟩

/-- Modelled from the spec: evaluation of one phase: with the engine on, the rules of
that phase are tried in file order and the first matching `deny` rule interrupts. -/
def evalPhase (e : Engine) (d : Directives) (phase : Nat) (m : RequestMessage) :
    Option Interruption :=
  if d.SecRuleEngine then
    ((d.rules.filter (fun r => r.phase == phase)).find?
      (fun r => r.matchesMessage e m && r.deny)).map SecRule.interruption
  else none

/-- Modelled from the spec: an Application, a compiled rule set (section 3). The test
builds it with `NewApplication(&logger, directives)` (e2e_test.go line 57). -/
structure Application where
  directives : Directives
  deriving DecidableEq, Repr

/-- Modelled from the spec: `Evaluate` for the request phase (section 6): the verdict of
the request-header phase (phase 1) when it interrupts, otherwise whatever the later
evaluation returns. -/
def Evaluate (e : Engine) (app : Application) (m : RequestMessage) : Verdict :=
  match evalPhase e app.directives 1 m with
  | some it => ⟨it.action, it.status, it.data, 0⟩
  | none => e.later app.directives m

/-- The `Applications` map of the test agent (e2e_test.go lines 62-66): one entry,
"default". -/
def e2eApplications : List (String × Application) := [("default", ⟨directives⟩)]

/-- Modelled from the spec: `Resolve` of the application registry (section 4.3): a
known name resolves to its application, "" or an unrecognized name to "default" when
present, else not found. -/
def Resolve (registry : List (String × Application)) (name : String) : Option Application :=
  match registry.lookup name with
  | some a => some a
  | none => registry.lookup "default"

/-- Modelled from the spec: the variables an ack sets (section 4.1): action, status,
data, error and the correlation id. -/
structure Ack where
  action : Action
  status : Nat
  data : String
  error : Nat
  id : Option String
  deriving DecidableEq, Repr

/-- Modelled from the spec: the nonzero error code of a failed resolution (section 4.4,
"configuration-error"). -/
def configurationError : Nat := 1

/-- Modelled from the spec: the transaction correlator on a request-phase message
(section 4.4): resolve the application by the declared name; on failure an error verdict
without evaluation; otherwise evaluate and emit an ack carrying the verdict and a fresh
correlation id. -/
def handleRequest (e : Engine) (registry : List (String × Application)) (freshId : String)
    (m : RequestMessage) : Ack :=
  match Resolve registry m.app with
  | none => ⟨.none, 0, "", configurationError, none⟩
  | some app =>
    let v := Evaluate e app m
    ⟨v.action, v.statusCode, v.data, v.errorCode, some freshId⟩

/-! ## The proxy rules of the test frontend (e2e_test.go lines 78-99) -/

/-- The transaction variables `txn.e2e.*` that the frontend rules read (`option
var-prefix e2e`, line 104). -/
structure TxnVars where
  action : String
  status : Nat
  data : String
  error : Nat
  deriving DecidableEq, Repr

/-- Final actions of the `http-request` rules of the test frontend. -/
inductive ProxyAction where
  | redirect (code : Nat) (location : String)
  | deny (deny_status : Nat) (hdr : Option (String × String))
  | silentDrop
  deriving DecidableEq, Repr

/-- The ACL `is_deny` (line 83): `var(txn.e2e.action) -m str deny`. -/
def is_deny (v : TxnVars) : Bool := v.action == "deny"

/-- The ACL `status_424` (line 84): `var(txn.e2e.status) -m int 424`. -/
def status_424 (v : TxnVars) : Bool := v.status == 424

/-- The `http-request` rules of `CustomFrontendConfig`, in file order (lines 80, 87,
90, 93, 97): condition and final action. -/
def httpRequestRules : List ((TxnVars → Bool) × (TxnVars → ProxyAction)) :=
  [(fun v => v.action == "redirect", fun v => .redirect 302 v.data),
   (fun v => is_deny v && status_424 v, fun _ => .deny 424 (some ("waf-block", "request"))),
   (fun v => is_deny v, fun _ => .deny 403 (some ("waf-block", "request"))),
   (fun v => v.action == "drop", fun _ => .silentDrop),
   (fun v => decide (v.error > 0), fun _ => .deny 504 none)]

/-- The proxy evaluates its `http-request` rules in order; the first rule whose
condition holds ends the evaluation with its final action. `none`: no rule applies and
the request goes to the backend. -/
def httpRequest (v : TxnVars) : Option ProxyAction :=
  (httpRequestRules.find? (fun r => r.1 v)).map (fun r => r.2 v)

/-- The variables that an ack sets on the proxy side. -/
def Ack.vars (a : Ack) : TxnVars := ⟨a.action.name, a.status, a.data, a.error⟩

/-! ## Concrete inputs used to exercise the statements -/

/-- A start-up configuration: bind address, log settings `0`, no further content. -/
def cfgA : Config Nat Unit := ⟨"127.0.0.1:9000", 0, ()⟩

/-- Same bind address as `cfgA`, other log settings. -/
def cfgA1 : Config Nat Unit := ⟨"127.0.0.1:9000", 1, ()⟩

/-- Other bind address and other log settings than `cfgA`. -/
def cfgB : Config Nat Unit := ⟨"127.0.0.1:9001", 1, ()⟩

/-- External calls that all succeed: the file holds `c`, a logger is identified with the
settings it was built from, and the application set built is `apps`. -/
def envOk (c : Config Nat Unit) (apps : Nat) : Env Nat Unit Nat Nat :=
  ⟨.ok c, fun l => .ok l, fun _ => .ok apps⟩

/-- The configuration file cannot be read. -/
def envNoFile : Env Nat Unit Nat Nat :=
  ⟨.error "open: no such file", fun l => .ok l, fun _ => .ok 7⟩

/-- The file holds `c` but its applications cannot be built. -/
def envBadApps (c : Config Nat Unit) : Env Nat Unit Nat Nat :=
  ⟨.ok c, fun l => .ok l, fun _ => .error "invalid directives"⟩

/-- State after a start-up from `cfgA`: logger built from `cfgA.Log`, application set 5. -/
def stA : State Nat Unit Nat Nat := ⟨cfgA, 0, 5⟩

/-- An engine for the concrete examples: no external operator matches, the other
transformations and collections are empty, and the later evaluation allows. -/
def quietEngine : Engine :=
  ⟨fun _ _ => false, fun _ s => s, fun _ _ => [], fun _ _ => ⟨.none, 0, "", 0⟩⟩

/-- A request for `/post` by POST that carries no `coraza-e2e` header. -/
def msgNoHeader : RequestMessage :=
  ⟨"default", "127.0.0.1", 40000, "127.0.0.1", 8080, "POST", "/post", "", "1.1",
    [("Host", "localhost")], ""⟩

/-- The request `GET /admin` of the e2e suite, with the `coraza-e2e` header. -/
def msgAdmin : RequestMessage :=
  ⟨"default", "127.0.0.1", 40000, "127.0.0.1", 8080, "GET", "/admin", "", "1.1",
    [("Host", "localhost"), ("Coraza-E2E", "ok")], ""⟩

/-- The request `GET /admin?x=1`, with the `coraza-e2e` header: path `/admin`, query
string `x=1`. -/
def msgAdminQuery : RequestMessage :=
  ⟨"default", "127.0.0.1", 40000, "127.0.0.1", 8080, "GET", "/admin", "x=1", "1.1",
    [("Host", "localhost"), ("Coraza-E2E", "ok")], ""⟩

/-! ## Theorems about the signal loop -/

section LoopTheorems

variable {L R Lg A : Type}

theorem reloadApply_cfg_bind (env : Env L R Lg A) (s : State L R Lg A) (newCfg : Config L R)
    (tr : List (Event L R Lg A)) :
    (reloadApply env s newCfg tr).1.cfg.Bind = s.cfg.Bind := by
  unfold reloadApply
  split_ifs with h
  · rfl
  · split
    · rfl
    · simp only [not_not] at h
      exact h.symm

variable [DecidableEq L]

theorem reload_cfg_bind (env : Env L R Lg A) (s : State L R Lg A) :
    (reload env s).1.cfg.Bind = s.cfg.Bind := by
  unfold reload
  split
  · rfl
  · split_ifs with h
    · split
      · rfl
      · rw [reloadApply_cfg_bind]
    · rw [reloadApply_cfg_bind]

theorem step_cfg_bind (env : Env L R Lg A) (s : State L R Lg A) (sig : Signal) :
    (step env s sig).state.cfg.Bind = s.cfg.Bind := by
  cases sig <;> simp [step, reload_cfg_bind]

/-- C1: a SIGHUP reload whose newly read configuration has another `Bind` than the
current one is rejected. Whatever the rest of the new configuration and whatever the
logger step does, `newApplications` is not attempted, `ReplaceApplications` is not
called, the current configuration and the application set stay as they were, and the
loop goes on. -/
theorem C1_bind_change_rejected (env : Env L R Lg A) (s : State L R Lg A)
    (newCfg : Config L R) (hread : env.readConfig = .ok newCfg)
    (hbind : newCfg.Bind ≠ s.cfg.Bind) :
    (step env s .SIGHUP).state.cfg = s.cfg ∧
    (step env s .SIGHUP).state.Applications = s.Applications ∧
    (step env s .SIGHUP).returned = false ∧
    ∀ e ∈ (step env s .SIGHUP).trace, e.isNewApplications = false ∧ e.isReplace = false := by
  have hb : s.cfg.Bind ≠ newCfg.Bind := fun h => hbind h.symm
  simp only [step, reload, hread]
  split_ifs with hlog
  · split
    · simp [Event.isNewApplications, Event.isReplace]
    · simp [reloadApply, hb, Event.isNewApplications, Event.isReplace]
  · simp [reloadApply, hb, Event.isNewApplications, Event.isReplace]

/-- Witness for C1: the file now holds `cfgB` (other bind address) while `cfgA` is
current. -/
theorem C1_bind_change_rejected_witness :
    (step (envOk cfgB 7) stA .SIGHUP).state.cfg = stA.cfg ∧
    (step (envOk cfgB 7) stA .SIGHUP).state.Applications = stA.Applications ∧
    (step (envOk cfgB 7) stA .SIGHUP).returned = false ∧
    ∀ e ∈ (step (envOk cfgB 7) stA .SIGHUP).trace,
      e.isNewApplications = false ∧ e.isReplace = false :=
  C1_bind_change_rejected (envOk cfgB 7) stA cfgB rfl (by decide)

/-- C2: when `readConfig` fails, or the configuration is read but its
`newApplications` fails, the SIGHUP iteration never calls `ReplaceApplications`, leaves
the current configuration and the installed application set unchanged, and does not
return from `main`. -/
theorem C2_failed_reload_keeps_registry (env : Env L R Lg A) (s : State L R Lg A)
    (h : (∃ e, env.readConfig = .error e) ∨
      ∃ newCfg e, env.readConfig = .ok newCfg ∧ env.newApplications newCfg = .error e) :
    (step env s .SIGHUP).state.cfg = s.cfg ∧
    (step env s .SIGHUP).state.Applications = s.Applications ∧
    (step env s .SIGHUP).returned = false ∧
    ∀ e ∈ (step env s .SIGHUP).trace, e.isReplace = false := by
  rcases h with ⟨e, hread⟩ | ⟨newCfg, e, hread, happs⟩
  · simp [step, reload, hread, Event.isReplace]
  · simp only [step, reload, hread]
    split_ifs with hlog
    · split
      · simp [Event.isReplace]
      · simp only [reloadApply, happs]
        split_ifs <;> simp [Event.isReplace]
    · simp only [reloadApply, happs]
      split_ifs <;> simp [Event.isReplace]

/-- Witness for C2: the applications of the newly read `cfgA1` cannot be built. -/
theorem C2_failed_reload_keeps_registry_witness :
    (step (envBadApps cfgA1) stA .SIGHUP).state.cfg = stA.cfg ∧
    (step (envBadApps cfgA1) stA .SIGHUP).state.Applications = stA.Applications ∧
    (step (envBadApps cfgA1) stA .SIGHUP).returned = false ∧
    ∀ e ∈ (step (envBadApps cfgA1) stA .SIGHUP).trace, e.isReplace = false :=
  C2_failed_reload_keeps_registry (envBadApps cfgA1) stA
    (Or.inr ⟨cfgA1, "invalid directives", rfl, rfl⟩)

/-- C4: when `readConfig` succeeds with `newCfg`, the logger step does not fail (the
log settings are unchanged or `newLogger` succeeds), `newCfg.Bind` equals the current
`Bind` and `newCfg.newApplications()` succeeds with `apps`, then `newApplications` is
called once, on `newCfg`; `ReplaceApplications` is called exactly once, with `apps`; the
installed application set afterwards is `apps`; the current configuration is `newCfg`;
and the loop goes on. -/
theorem C4_successful_reload_swaps (env : Env L R Lg A) (s : State L R Lg A)
    (newCfg : Config L R) (apps : A) (hread : env.readConfig = .ok newCfg)
    (hlog : s.cfg.Log = newCfg.Log ∨ ∃ lg, env.newLogger newCfg.Log = .ok lg)
    (hbind : newCfg.Bind = s.cfg.Bind) (happs : env.newApplications newCfg = .ok apps) :
    (step env s .SIGHUP).state.cfg = newCfg ∧
    (step env s .SIGHUP).state.Applications = apps ∧
    (step env s .SIGHUP).trace.filter Event.isReplace = [.ReplaceApplications apps] ∧
    (step env s .SIGHUP).trace.filter Event.isNewApplications = [.newApplications newCfg] ∧
    (step env s .SIGHUP).returned = false := by
  simp only [step, reload, hread]
  split_ifs with hne
  · rcases hlog with heq | ⟨lg, hlg⟩
    · exact absurd heq hne
    · simp [hlg, reloadApply, hbind, happs, ReplaceApplications, List.filter,
        Event.isReplace, Event.isNewApplications]
  · simp [reloadApply, hbind, happs, ReplaceApplications, List.filter,
      Event.isReplace, Event.isNewApplications]

/-- Witness for C4: the file holds `cfgA1` (same bind, new log settings), everything
succeeds and the application set 7 is built. -/
theorem C4_successful_reload_swaps_witness :
    (step (envOk cfgA1 7) stA .SIGHUP).state.cfg = cfgA1 ∧
    (step (envOk cfgA1 7) stA .SIGHUP).state.Applications = 7 ∧
    (step (envOk cfgA1 7) stA .SIGHUP).trace.filter Event.isReplace
      = [.ReplaceApplications 7] ∧
    (step (envOk cfgA1 7) stA .SIGHUP).trace.filter Event.isNewApplications
      = [.newApplications cfgA1] ∧
    (step (envOk cfgA1 7) stA .SIGHUP).returned = false :=
  C4_successful_reload_swaps (envOk cfgA1 7) stA cfgA1 7 rfl (Or.inr ⟨1, rfl⟩) rfl rfl

theorem step_not_returned (env : Env L R Lg A) (s : State L R Lg A) (sig : Signal)
    (h1 : sig ≠ .SIGTERM) (h2 : sig ≠ .SIGINT) : (step env s sig).returned = false := by
  cases sig <;> simp_all [step]

/-- C5: in any sequence of signals, the first SIGTERM or SIGINT makes `main` return (the
deferred `cancelFunc` runs). After the signals before it, the only actions are the
shutdown log line and `cancelFunc`: no `readConfig`, no `ReplaceApplications`; the state
is the one reached before the shutdown signal, and the signals after it play no role. -/
theorem C5_shutdown_ends_loop (s : State L R Lg A) (pre post : List (Signal × Env L R Lg A))
    (sig : Signal) (env : Env L R Lg A)
    (hpre : ∀ x ∈ pre, x.1 ≠ Signal.SIGTERM ∧ x.1 ≠ Signal.SIGINT)
    (hsig : sig = .SIGTERM ∨ sig = .SIGINT) :
    (run s pre).returned = false ∧
    (run s (pre ++ (sig, env) :: post)).returned = true ∧
    (run s (pre ++ (sig, env) :: post)).state = (run s pre).state ∧
    ∃ msg, (run s (pre ++ (sig, env) :: post)).trace =
      (run s pre).trace ++
        [.log (run s pre).state.globalLogger .info msg none, .cancelFunc] := by
  induction pre generalizing s with
  | nil =>
    rcases hsig with rfl | rfl
    · exact ⟨rfl, rfl, rfl, _, rfl⟩
    · exact ⟨rfl, rfl, rfl, _, rfl⟩
  | cons x pre ih =>
    obtain ⟨sg, e⟩ := x
    have hx := hpre (sg, e) (List.mem_cons_self _ _)
    have hr : (step e s sg).returned = false := step_not_returned e s sg hx.1 hx.2
    have ih2 := ih (step e s sg).state (fun y hy => hpre y (List.mem_cons_of_mem _ hy))
    obtain ⟨h0, h1, h2, msg, h3⟩ := ih2
    refine ⟨?_, ?_, ?_, msg, ?_⟩
    · simp [run, hr, h0]
    · simp [run, hr, h1]
    · simp [run, hr, h2]
    · simp [run, hr, h3]

/-- Witness for C5: a no-op signal and a successful reload, then SIGTERM, then a SIGHUP
that is never received. -/
theorem C5_shutdown_ends_loop_witness :
    (run stA [(.SIGUSR1, envNoFile), (.SIGHUP, envOk cfgA1 7)]).returned = false ∧
    (run stA ([(.SIGUSR1, envNoFile), (.SIGHUP, envOk cfgA1 7)] ++
      (.SIGTERM, envNoFile) :: [(.SIGHUP, envOk cfgA 9)])).returned = true ∧
    (run stA ([(.SIGUSR1, envNoFile), (.SIGHUP, envOk cfgA1 7)] ++
      (.SIGTERM, envNoFile) :: [(.SIGHUP, envOk cfgA 9)])).state =
      (run stA [(.SIGUSR1, envNoFile), (.SIGHUP, envOk cfgA1 7)]).state ∧
    ∃ msg, (run stA ([(.SIGUSR1, envNoFile), (.SIGHUP, envOk cfgA1 7)] ++
      (.SIGTERM, envNoFile) :: [(.SIGHUP, envOk cfgA 9)])).trace =
      (run stA [(.SIGUSR1, envNoFile), (.SIGHUP, envOk cfgA1 7)]).trace ++
        [.log (run stA [(.SIGUSR1, envNoFile), (.SIGHUP, envOk cfgA1 7)]).state.globalLogger
          .info msg none, .cancelFunc] :=
  C5_shutdown_ends_loop stA [(.SIGUSR1, envNoFile), (.SIGHUP, envOk cfgA1 7)]
    [(.SIGHUP, envOk cfgA 9)] .SIGTERM envNoFile (by simp) (Or.inl rfl)

/-- C8: listener identity is invariant. For every start state and every finite sequence
of signals with arbitrary outcomes of `readConfig`, `newLogger` and `newApplications`,
the `Bind` of the current configuration after the sequence (hence after each of its
prefixes) is the `Bind` of the start-up configuration. -/
theorem C8_bind_invariant (s : State L R Lg A) (inputs : List (Signal × Env L R Lg A)) :
    (run s inputs).state.cfg.Bind = s.cfg.Bind := by
  induction inputs generalizing s with
  | nil => rfl
  | cons x rest ih =>
    obtain ⟨sg, e⟩ := x
    simp only [run]
    split_ifs
    · exact step_cfg_bind e s sg
    · exact (ih (step e s sg).state).trans (step_cfg_bind e s sg)

/-- C10: SIGUSR1 has no branch in the `switch`. Receiving it leaves configuration,
logger and application set unchanged, performs no action at all (no `readConfig`, no
`ReplaceApplications`), does not return, and the loop carries on with the next signal
exactly as if SIGUSR1 had not been received. -/
theorem C10_sigusr1_noop (env : Env L R Lg A) (s : State L R Lg A)
    (rest : List (Signal × Env L R Lg A)) :
    (step env s .SIGUSR1).state = s ∧
    (step env s .SIGUSR1).trace = [] ∧
    (step env s .SIGUSR1).returned = false ∧
    run s ((.SIGUSR1, env) :: rest) = run s rest := by
  refine ⟨rfl, rfl, rfl, ?_⟩
  simp [run, step]

end LoopTheorems

/-- The two earliest rejections leave the whole state as it was: when `readConfig`
fails, or when the log settings differ and `newLogger` fails, the state after the SIGHUP
iteration is the state before it. -/
theorem reload_early_rejection_state (L R Lg A : Type) [DecidableEq L]
    (env : Env L R Lg A) (s : State L R Lg A)
    (h : (∃ e, env.readConfig = .error e) ∨
      ∃ newCfg e, env.readConfig = .ok newCfg ∧ s.cfg.Log ≠ newCfg.Log ∧
        env.newLogger newCfg.Log = .error e) :
    (step env s .SIGHUP).state = s := by
  rcases h with ⟨e, hread⟩ | ⟨newCfg, e, hread, hne, hlg⟩
  · simp [step, reload, hread]
  · simp [step, reload, hread, hne, hlg]

/-- C3, evaluated on the code: `cfgA` is current and the file holds `cfgB` (other log
settings, other bind). The reload ends on the branch that logs "Changing bind is not
supported yet, using old configuration"; configuration and application set are kept,
but the global logger is now the one built from the rejected file (1 instead of 0), so
the state after the step differs from the state before it. The same holds on the branch
"Error applying configuration, using old configuration" when the file holds `cfgA1`
(same bind, other log settings) and its applications cannot be built. -/
theorem C3_rejected_reload_replaces_logger :
    (step (envOk cfgB 7) stA .SIGHUP).trace.getLast? =
      some (.log 1 .error "Changing bind is not supported yet, using old configuration"
        none) ∧
    (step (envOk cfgB 7) stA .SIGHUP).state.cfg = stA.cfg ∧
    (step (envOk cfgB 7) stA .SIGHUP).state.Applications = stA.Applications ∧
    stA.globalLogger = 0 ∧
    (step (envOk cfgB 7) stA .SIGHUP).state.globalLogger = 1 ∧
    (step (envOk cfgB 7) stA .SIGHUP).state ≠ stA ∧
    (step (envBadApps cfgA1) stA .SIGHUP).trace.getLast? =
      some (.log 1 .error "Error applying configuration, using old configuration"
        (some "invalid directives")) ∧
    (step (envBadApps cfgA1) stA .SIGHUP).state ≠ stA := by
  decide

/-- C9, evaluated on the code: start-up from `cfgA` gives a logger built from
`cfgA.Log`. A first reload reads `cfgB` and is rejected for its bind address after the
logger built from `cfgB.Log` was installed. A second reload reads `cfgA` again and
succeeds (application set 8 installed); since the log settings equal those of the
current configuration no logger is built, and the global logger stays the one built from
`cfgB.Log` (1), not the one built from the current configuration (0). -/
theorem C9_logger_diverges_from_config :
    startup "coraza-spoa.yaml" (envOk cfgA 5) (fun _ => .ok ()) = some stA ∧
    (envOk cfgA 5).newLogger stA.cfg.Log = .ok stA.globalLogger ∧
    (run stA [(.SIGHUP, envOk cfgB 7)]).state.cfg = cfgA ∧
    (run stA [(.SIGHUP, envOk cfgB 7)]).state.globalLogger = 1 ∧
    (run stA [(.SIGHUP, envOk cfgB 7), (.SIGHUP, envOk cfgA 8)]).state.cfg = cfgA ∧
    (run stA [(.SIGHUP, envOk cfgB 7), (.SIGHUP, envOk cfgA 8)]).state.Applications = 8 ∧
    (run stA [(.SIGHUP, envOk cfgB 7), (.SIGHUP, envOk cfgA 8)]).state.globalLogger = 1 ∧
    (envOk cfgA 8).newLogger
      (run stA [(.SIGHUP, envOk cfgB 7), (.SIGHUP, envOk cfgA 8)]).state.cfg.Log = .ok 0 :=
  ⟨rfl, rfl, by decide, by decide, by decide, by decide, by decide, rfl⟩

/-! ## Theorems about the end-to-end scenarios -/

theorem resolve_e2e (name : String) : Resolve e2eApplications name = some ⟨directives⟩ := by
  unfold Resolve e2eApplications
  by_cases h : name = "default"
  · subst h; rfl
  · have h2 : (name == "default") = false := by simpa using h
    simp [List.lookup, h2]

theorem count_eq_zero_of_lacks (m : RequestMessage)
    (h : ∀ hd ∈ m.headers, lowercase hd.1 ≠ "coraza-e2e") :
    (m.headers.filter (fun hd => lowercase hd.1 == lowercase "coraza-e2e")).length = 0 := by
  have hl : lowercase "coraza-e2e" = "coraza-e2e" := by decide
  rw [hl, List.length_eq_zero, List.filter_eq_nil_iff]
  intro hd hmem
  simpa using h hd hmem

theorem count_ne_zero_of_has (m : RequestMessage)
    (h : ∃ hd ∈ m.headers, lowercase hd.1 = "coraza-e2e") :
    (m.headers.filter (fun hd => lowercase hd.1 == lowercase "coraza-e2e")).length ≠ 0 := by
  have hl : lowercase "coraza-e2e" = "coraza-e2e" := by decide
  obtain ⟨hd, hmem, hname⟩ := h
  rw [hl]
  intro h0
  rw [List.length_eq_zero, List.filter_eq_nil_iff] at h0
  exact h0 hd hmem (by simpa using hname)

theorem evalPhase_lacks (e : Engine) (m : RequestMessage)
    (h : ∀ hd ∈ m.headers, lowercase hd.1 ≠ "coraza-e2e") :
    evalPhase e directives 1 m = some ⟨100, .deny, 424, ""⟩ := by
  have hc := count_eq_zero_of_lacks m h
  simp [evalPhase, directives, List.filter, List.find?, SecRule.matchesMessage,
    targetValues, opHolds, hc, SecRule.interruption]

theorem evalPhase_admin (e : Engine) (m : RequestMessage) (hpath : m.path = "/admin")
    (hquery : m.query = "") (h : ∃ hd ∈ m.headers, lowercase hd.1 = "coraza-e2e") :
    evalPhase e directives 1 m = some ⟨101, .deny, 403, ""⟩ := by
  have hc : ((m.headers.filter
      (fun hd => lowercase hd.1 == lowercase "coraza-e2e")).length == 0) = false := by
    simpa using count_ne_zero_of_has m h
  have hl : lowercase "/admin" = "/admin" := by decide
  simp [evalPhase, directives, List.filter, List.find?, SecRule.matchesMessage,
    targetValues, opHolds, hc, SecRule.interruption, requestURI, hpath, hquery,
    applyTransformations, hl]

/-- C6 (scenario B): with the e2e rule set, every request-phase message without a
`coraza-e2e` header, whatever its path, method and other arguments, is answered by an
ack with action deny and status 424 (rule 100 is the first rule of phase 1); on that ack
the `http-request` rules of the test frontend end with `deny deny_status 424`, since the
rule guarded by `is_deny status_424` stands before the generic `is_deny` rule. -/
theorem C6_missing_header_denied_424 (e : Engine) (freshId : String) (m : RequestMessage)
    (h : ∀ hd ∈ m.headers, lowercase hd.1 ≠ "coraza-e2e") :
    (handleRequest e e2eApplications freshId m).action = .deny ∧
    (handleRequest e e2eApplications freshId m).status = 424 ∧
    httpRequest (handleRequest e e2eApplications freshId m).vars =
      some (.deny 424 (some ("waf-block", "request"))) := by
  have hack : handleRequest e e2eApplications freshId m =
      ⟨.deny, 424, "", 0, some freshId⟩ := by
    simp [handleRequest, resolve_e2e, Evaluate, evalPhase_lacks e m h]
  rw [hack]
  exact ⟨rfl, rfl, rfl⟩

/-- Witness for C6: a POST of `/post` without the header. -/
theorem C6_missing_header_denied_424_witness :
    (handleRequest quietEngine e2eApplications "id-1" msgNoHeader).action = .deny ∧
    (handleRequest quietEngine e2eApplications "id-1" msgNoHeader).status = 424 ∧
    httpRequest (handleRequest quietEngine e2eApplications "id-1" msgNoHeader).vars =
      some (.deny 424 (some ("waf-block", "request"))) :=
  C6_missing_header_denied_424 quietEngine "id-1" msgNoHeader (by decide)

/-- C7 as stated fails: the notify for `GET /admin?x=1` has app=default and
path=/admin and carries the `coraza-e2e` header, so rule 100 does not fire and rule 101
is evaluated; but the request URI is `/admin?x=1`, which `@streq /admin` does not match,
so phase 1 does not interrupt and the ack is not deny/403 (here: action none, status
0). -/
theorem C7_admin_with_query_not_denied :
    msgAdminQuery.app = "default" ∧
    msgAdminQuery.path = "/admin" ∧
    ("Coraza-E2E", "ok") ∈ msgAdminQuery.headers ∧
    lowercase "Coraza-E2E" = "coraza-e2e" ∧
    requestURI msgAdminQuery = "/admin?x=1" ∧
    evalPhase quietEngine directives 1 msgAdminQuery = none ∧
    (handleRequest quietEngine e2eApplications "id-3" msgAdminQuery).action = .none ∧
    (handleRequest quietEngine e2eApplications "id-3" msgAdminQuery).status = 0 ∧
    ¬ ((handleRequest quietEngine e2eApplications "id-3" msgAdminQuery).action = .deny ∧
      (handleRequest quietEngine e2eApplications "id-3" msgAdminQuery).status = 403) := by
  decide

/-- C7 (scenario A), amended: a request-phase notify with app=default, path=/admin and
an empty query string (so that the request URI is exactly `/admin`) that rule 101
evaluates, i.e. that carries the `coraza-e2e` header so that rule 100 ahead of it does
not fire, is answered by an ack with action deny and status 403; the deciding rule is
101. -/
theorem C7_admin_denied_403 (e : Engine) (freshId : String) (m : RequestMessage)
    (happ : m.app = "default") (hpath : m.path = "/admin") (hquery : m.query = "")
    (hhdr : ∃ hd ∈ m.headers, lowercase hd.1 = "coraza-e2e") :
    Resolve e2eApplications m.app = some ⟨directives⟩ ∧
    (evalPhase e directives 1 m).map Interruption.ruleID = some 101 ∧
    (handleRequest e e2eApplications freshId m).action = .deny ∧
    (handleRequest e e2eApplications freshId m).status = 403 := by
  have hev := evalPhase_admin e m hpath hquery hhdr
  have hres : Resolve e2eApplications m.app = some ⟨directives⟩ := by rw [happ]; rfl
  refine ⟨hres, by rw [hev]; rfl, ?_, ?_⟩ <;>
    simp [handleRequest, hres, Evaluate, hev]

/-- Witness for C7: the request `GET /admin` with the header `Coraza-E2E: ok`. -/
theorem C7_admin_denied_403_witness :
    Resolve e2eApplications msgAdmin.app = some ⟨directives⟩ ∧
    (evalPhase quietEngine directives 1 msgAdmin).map Interruption.ruleID = some 101 ∧
    (handleRequest quietEngine e2eApplications "id-2" msgAdmin).action = .deny ∧
    (handleRequest quietEngine e2eApplications "id-2" msgAdmin).status = 403 :=
  C7_admin_denied_403 quietEngine "id-2" msgAdmin rfl rfl rfl
    ⟨("Coraza-E2E", "ok"), by decide, by decide⟩

end CorazaSpoa
